import Mathlib

/-!
Verification of the workflow state machine of the `universal` web-agent
repository against its natural-language specification.

The Lean definitions below are a shallow embedding of the Python sources:

* `src/agent/graph.py` — the five phase functions (`planning_node`,
  `agent_reasoning_node`, `execute_action_node`, `researcher_node`,
  `plan_updater_node`), the conditional router `validator_and_router_node`,
  and the graph wiring `create_graph`;
* `src/agent/llm.py` — the lenient JSON repair routine
  `extract_json_from_response`;
* `src/main.py` — the initial job state (`run_job`, lines 95-101).

External collaborators (the browser page, the LLM providers, the Tavily
search client, and the notification sink `push_status_update`) are modelled
as explicit environment records supplying the values and exception outcomes
that the Python code obtains from them.  Exceptions raised by those
collaborators are modelled with `Except String`; a Python `except` clause
becomes a `match` on the corresponding `Except` value.  Status events are
modelled only where a claim depends on them (the router emits them with
their reason strings); elsewhere they are pure notifications with no effect
on the job state.  Counters (`step`, `max_steps`, `retry_count`) are
naturals: they are initialised to non-negative literals and only ever
incremented or reset by the code.
-/

namespace UniversalAgent

/-- JSON values, the possible results of Python `json.loads` and the shape of
the action/plan objects that flow through the workflow. -/
inductive JsonV where
  | null : JsonV
  | bool (b : Bool) : JsonV
  | num (n : Int) : JsonV
  | str (s : String) : JsonV
  | arr (xs : List JsonV) : JsonV
  | obj (fields : List (String × JsonV)) : JsonV

/-- The `plan_details` dict produced by the Planner or Plan-updater
(`src/agent/graph.py` reads keys `objective`, `intent`, `plan`,
`target_count` with defaults).  `none` models an absent key; an absent
`plan` key defaults to the empty list and an absent `target_count` to
`float('inf')` (modelled by `none`, see `targetHit`). -/
structure PlanDetails where
  objective : Option String
  intent : Option String
  plan : List String
  target_count : Option Int

/-- An action dict as produced by the Reasoner.  `typ` models the `"type"`
key (`none` = key absent, which also covers the empty dict `{}`); `id`,
`text`, `direction`, `items`, `reason` model the equally named keys, with
`none` or `[]` for an absent key. -/
structure ActionRec where
  typ : Option String
  id : Option String
  text : Option String
  direction : Option String
  items : List JsonV
  reason : Option String

/-- The action dict with no keys, the `last_action={}` of the initial state. -/
def emptyAction : ActionRec :=
  { typ := none, id := none, text := none, direction := none,
    items := [], reason := none }

/-- The mutable job state, after `AgentState` in `src/agent/state.py`.
`generated_credentials` and `job_artifacts_dir` are omitted: no phase in
`src/agent/graph.py` reads or writes the former, and the latter only names
the directory screenshots are saved under (the relative artifact path that
ends up in the state is built from `job_id` and `step`, see
`screenshotRel`). -/
structure AgentState where
  job_id : String
  query : String
  url : String
  provider : String
  plan_details : PlanDetails
  current_task : String
  page_content : String
  modified_html_for_action : String
  results : List JsonV
  screenshots : List String
  step : Nat
  max_steps : Nat
  history : List String
  execution_summary : List String
  last_action : ActionRec
  last_action_outcome : String
  retry_count : Nat
  last_error : String
  research_summary : String

/-- The initial job state built in `run_job` (`src/main.py` lines 95-101):
all counters zeroed (`step=1`, `max_steps=40`, `retry_count=0`), empty
collections, empty dicts for `plan_details` and `last_action`. -/
def initialState (job_id query url provider : String) : AgentState :=
  { job_id := job_id, query := query, url := url, provider := provider,
    plan_details := { objective := none, intent := none, plan := [],
                      target_count := none },
    current_task := "", page_content := "", modified_html_for_action := "",
    results := [], screenshots := [],
    step := 1, max_steps := 40, history := [], execution_summary := [],
    last_action := emptyAction, last_action_outcome := "",
    retry_count := 0, last_error := "", research_summary := "" }

/-! ## JSON repair routine (`extract_json_from_response`, src/agent/llm.py lines 58-81) -/

/-- Whitespace as matched by the `\s` class in the trailing-comma regex
`,\s*([\}\]])` of `extract_json_from_response`. -/
def isPySpace (c : Char) : Bool :=
  c == ' ' || c == '\t' || c == '\n' || c == '\r' || c == '\x0b' || c == '\x0c'

/-- Skip the `\s*` part of the regex match. -/
def skipWs (l : List Char) : List Char := l.dropWhile isPySpace

/-- Left-to-right scan implementing
`re.sub(r',\s*([\}\]])', r'\1', s)`: every comma followed by optional
whitespace and a closing brace or bracket is replaced by just that
brace/bracket, scanning resuming after the match; a comma not followed by
such a bracket is kept and scanning resumes at the next character. -/
def stripAux : List Char → List Char
  | [] => []
  | c :: rest =>
    if c = ',' then
      match hsw : skipWs rest with
      | [] => c :: stripAux rest
      | b :: rest2 =>
        if b = '}' ∨ b = ']' then b :: stripAux rest2
        else c :: stripAux rest
    else c :: stripAux rest
termination_by l => l.length
decreasing_by
  all_goals simp_wf
  all_goals
    first
      | omega
      | (have h1 : (skipWs rest).length ≤ rest.length :=
           (List.dropWhile_sublist (l := rest) (p := isPySpace)).length_le
         rw [hsw] at h1
         simp at h1
         omega)

/-- Index of the first occurrence of `a`, Python `str.find`. -/
def firstIdx (a : Char) : List Char → Option Nat
  | [] => none
  | c :: rest => if c = a then some 0 else (firstIdx a rest).map (· + 1)

/-- Index of the last occurrence of `a`, Python `str.rfind`. -/
def lastIdx (a : Char) (l : List Char) : Option Nat :=
  match firstIdx a l.reverse with
  | none => none
  | some k => some (l.length - 1 - k)

/-- The candidate JSON string assembled by `extract_json_from_response`
before it is handed to `json.loads`: slice from the first `{` to the last
`}` (to the end if there is no `}`), strip trailing commas, and append the
missing closing braces when more are opened than closed.  Returns `none`
exactly when the text has no `{` at all, the case in which the Python code
raises `ValueError` before any repair is attempted. -/
def repairedCandidate (text : String) : Option String :=
  match firstIdx '{' text.toList with
  | none => none
  | some i =>
    let jsonChars :=
      match lastIdx '}' text.toList with
      | none => text.toList.drop i
      | some j => (text.toList.take (j + 1)).drop i
    let fixed := stripAux jsonChars
    let diff := fixed.count '{' - fixed.count '}'
    some (String.mk (fixed ++ List.replicate diff '}'))

/-- The fallback object returned when `json.loads` still fails after repair:
`{"thought": "Invalid response from LLM", "action": {"type": "wait"}}`. -/
def fallbackAction : JsonV :=
  JsonV.obj [("thought", JsonV.str "Invalid response from LLM"),
             ("action", JsonV.obj [("type", JsonV.str "wait")])]

/-- Shallow embedding of `extract_json_from_response` (src/agent/llm.py
lines 58-81).  `parse` stands for the Python-stdlib `json.loads`, returning
`none` where `json.loads` would raise `json.JSONDecodeError`.  An
`Except.error` result models the `ValueError` the Python function raises
when the text contains no `{`; the error message in the source reads
"No JSON object found in the model response" (with a possessive form of
"model"). -/
def extract_json_from_response (parse : String → Option JsonV)
    (text : String) : Except String JsonV :=
  match repairedCandidate text with
  | none => Except.error ("No JSON object found in the model response: " ++ text)
  | some cand =>
    match parse cand with
    | some v => Except.ok v
    | none => Except.ok fallbackAction

/-! ## Phase functions (src/agent/graph.py) -/

/-- Environment of one `planning_node` invocation: the page URL read from
the browser and the plan object returned by `get_structured_plan` (an LLM
call; a failure there propagates job-fatally and yields no transition). -/
structure PlanEnv where
  pageUrl : String
  planDetails : PlanDetails

/-- The `[Plan Generated]` entry appended to `execution_summary` by
`planning_node` (src/agent/graph.py lines 40-45). -/
def planSummary (pd : PlanDetails) : String :=
  "[Plan Generated]\nObjective: " ++ pd.objective.getD "Not specified" ++
  "\nIntent: " ++ pd.intent.getD "Not specified" ++
  "\nPlan:\n" ++ String.intercalate "\n" (pd.plan.map (fun st => "  - " ++ st))

/-- Shallow embedding of `planning_node` (src/agent/graph.py lines 28-47). -/
def planning_node (env : PlanEnv) (s : AgentState) : AgentState :=
  { s with url := env.pageUrl,
           plan_details := env.planDetails,
           execution_summary := s.execution_summary ++ [planSummary env.planDetails] }

/-- Environment of one `agent_reasoning_node` invocation: page content and
URL read from the browser, the simplified element description and modified
HTML from `simplify_page_for_llm`, and the decoded LLM response, of which
the code keeps `response.get("thought", ...)` and
`response.get("action", {})`. -/
structure ReasonerEnv where
  pageContent : String
  pageUrl : String
  simplifiedElements : String
  modifiedHtml : String
  thought : Option String
  action : ActionRec

/-- Zero-padded step number, Python `f"{step:02d}"` for the step values a
job can reach. -/
def pad2 (n : Nat) : String :=
  if n < 10 then "0" ++ toString n else toString n

/-- Relative screenshot artifact path recorded by `agent_reasoning_node`:
`Path("screenshots") / job_id / f"{step:02d}_step.png"` rendered with
`as_posix()`. -/
def screenshotRel (jobId : String) (step : Nat) : String :=
  "screenshots/" ++ jobId ++ "/" ++ pad2 step ++ "_step.png"

/-- The sentinel `current_task` set when `step` points past the end of the
plan (src/agent/graph.py line 60). -/
def sentinelTask : String :=
  "All plan steps are complete. The final task is to finish the job."

/-- Shallow embedding of `agent_reasoning_node` (src/agent/graph.py lines
49-89): resolves `current_task` from `plan[step-1]` or the sentinel,
records a screenshot path, refreshes `page_content`/`url`, stores the
chosen action in `last_action`, and appends the step/thought entry to
`execution_summary`. -/
def agent_reasoning_node (env : ReasonerEnv) (s : AgentState) : AgentState :=
  let task := if s.step - 1 < s.plan_details.plan.length
              then s.plan_details.plan.getD (s.step - 1) ""
              else sentinelTask
  { s with
    current_task := task,
    screenshots := s.screenshots ++ [screenshotRel s.job_id s.step],
    page_content := env.pageContent,
    url := env.pageUrl,
    last_action := env.action,
    execution_summary := s.execution_summary ++
      ["\n[Step " ++ toString s.step ++ "] Task: " ++ task ++
       "\n  -> Thought: " ++ env.thought.getD "No thought provided."],
    modified_html_for_action := env.modifiedHtml }

/-- Environment of one `execute_action_node` invocation: the outcome of
each browser call the node can make, `Except.error msg` modelling a raised
`PlaywrightTimeoutError` or other exception whose first message line is
`msg` (both except-clauses of the source produce the same state change). -/
structure ExecEnv where
  elemVisible : Except String Unit
  clickRes : Except String Unit
  pressRes : Except String Unit
  loadState : Except String Unit
  fillRes : Except String Unit
  evalScroll : Except String Unit
  scrollPause : Except String Unit
  waitPause : Except String Unit
  postSettle : Except String Unit

/-- Python dict subscription `action[k]`: raises `KeyError` when the key is
absent (the Lean error string stands for the first line of the Python
exception text). -/
def getKey (v : Option String) (msg : String) : Except String String :=
  match v with
  | some x => Except.ok x
  | none => Except.error msg

/-- The `click`/`press_enter` branch of the executor try-block: subscript
`action['id']`, wait for visibility, click or press, then wait for the
load-settled signal (src/agent/graph.py lines 108-118). -/
def clickSeq (env : ExecEnv) (a : ActionRec) : Except String Unit := do
  let _ ← getKey a.id "KeyError: id"
  let _ ← env.elemVisible
  let _ ← (if a.typ = some "click" then env.clickRes else env.pressRes)
  env.loadState

/-- The `fill` branch: subscript `action['id']`, wait visible, subscript
`action['text']`, fill (src/agent/graph.py lines 120-124). -/
def fillSeq (env : ExecEnv) (a : ActionRec) : Except String Unit := do
  let _ ← getKey a.id "KeyError: id"
  let _ ← env.elemVisible
  let _ ← getKey a.text "KeyError: text"
  env.fillRes

/-- The `scroll` branch: evaluate the scroll script, then the settle pause
(src/agent/graph.py lines 126-130). -/
def scrollSeq (env : ExecEnv) : Except String Unit := do
  let _ ← env.evalScroll
  env.scrollPause

/-- The if/elif dispatch inside the executor try-block.  An action type
outside the dispatched set (including `finish` and unknown strings) matches
no branch and falls through with no effect.  Only `extract` changes
`results`, extending it with the action's items before any later call can
fail. -/
def tryBody (env : ExecEnv) (a : ActionRec) (results : List JsonV) :
    Except String Unit × List JsonV :=
  if a.typ = some "click" ∨ a.typ = some "press_enter" then
    (clickSeq env a, results)
  else if a.typ = some "fill" then (fillSeq env a, results)
  else if a.typ = some "scroll" then (scrollSeq env, results)
  else if a.typ = some "wait" then (env.waitPause, results)
  else if a.typ = some "extract" then (Except.ok (), results ++ a.items)
  else (Except.ok (), results)

/-- The whole executor try-block: the dispatched branch followed, when it
did not raise, by the uniform post-action settle wait of line 141, which
can itself raise after `results` was already extended. -/
def tryFull (env : ExecEnv) (a : ActionRec) (results : List JsonV) :
    Except String Unit × List JsonV :=
  match tryBody env a results with
  | (Except.ok _, r2) => (env.postSettle, r2)
  | (Except.error e, r2) => (Except.error e, r2)

/-- Stands for `json.dumps(action)` in the history and summary entries; the
claims treat these log strings opaquely, so the serialisation is
representative rather than byte-identical to the Python rendering. -/
def actionDump (a : ActionRec) : String :=
  "\x7btype: " ++ (match a.typ with | some t => t | none => "absent") ++ "\x7d"

/-- The history entry appended by each executor pass
(src/agent/graph.py line 156). -/
def histEntry (s : AgentState) (a : ActionRec) (outcome : String) : String :=
  "Step " ++ toString s.step ++ " (Task: " ++ s.current_task ++
  "): Action `" ++ actionDump a ++ "` -> " ++ outcome ++ "."

/-- The execution-summary entry appended by each executor pass
(src/agent/graph.py line 157). -/
def execEntry (a : ActionRec) (outcome errMsg : String) : String :=
  "  -> Action: " ++ actionDump a ++ "\n  -> Outcome: " ++ outcome ++
  (if errMsg = "" then "" else " (" ++ errMsg ++ ")")

/-- Shallow embedding of `execute_action_node` (src/agent/graph.py lines
90-164): a missing/empty action is recorded as FAILED without touching the
browser; otherwise the try-block runs and any raised exception is caught
and classified as FAILED with its message as `last_error`.  One history
entry and one summary entry are always appended, the history is then
truncated to its last 5 entries, and `step` advances exactly on a
`"Success"` outcome. -/
def execute_action_node (env : ExecEnv) (s : AgentState) : AgentState :=
  let a := s.last_action
  let tri : String × String × List JsonV :=
    match a.typ with
    | none => ("FAILED", "Agent produced an invalid or empty action.", s.results)
    | some _ =>
      match tryFull env a s.results with
      | (Except.ok _, r2) => ("Success", "", r2)
      | (Except.error e, r2) => ("FAILED", e, r2)
  let hist2 := s.history ++ [histEntry s a tri.1]
  { s with
    last_action_outcome := tri.1,
    last_error := tri.2.1,
    results := tri.2.2,
    history := hist2.drop (hist2.length - 5),
    execution_summary := s.execution_summary ++ [execEntry a tri.1 tri.2.1],
    step := if tri.1 = "Success" then s.step + 1 else s.step }

/-- Environment of one `researcher_node` invocation: whether the module
level `tavily_client` is configured, the outcome of `tavily_client.search`
and the outcome of `get_research_analysis` (each an exception or a value). -/
structure ResearchEnv where
  tavilyConfigured : Bool
  searchResults : Except String (List (String × String))
  analysis : Except String String

/-- Shallow embedding of `researcher_node` (src/agent/graph.py lines
166-188): with no search client it sets the degraded no-op summary and
returns; otherwise any exception from the search or the
analysis call is caught and converted into a `Research failed:` summary. -/
def researcher_node (env : ResearchEnv) (s : AgentState) : AgentState :=
  if env.tavilyConfigured = false then
    { s with research_summary := "Tavily API key not configured. Skipping research." }
  else
    match env.searchResults with
    | Except.error e => { s with research_summary := "Research failed: " ++ e }
    | Except.ok _ =>
      match env.analysis with
      | Except.error e => { s with research_summary := "Research failed: " ++ e }
      | Except.ok a => { s with research_summary := a }

/-- Environment of one `plan_updater_node` invocation: the replacement plan
returned by `get_updated_plan`. -/
structure PlanUpdateEnv where
  newPlan : PlanDetails

/-- The `[Plan Updated after Research]` summary entry
(src/agent/graph.py line 200). -/
def updateSummary (pd : PlanDetails) : String :=
  "\n[Plan Updated after Research]\nNew Plan:\n" ++
  String.intercalate "\n" (pd.plan.map (fun st => "  - " ++ st))

/-- Shallow embedding of `plan_updater_node` (src/agent/graph.py lines
190-201): replaces `plan_details` wholesale and logs the new plan. -/
def plan_updater_node (env : PlanUpdateEnv) (s : AgentState) : AgentState :=
  { s with plan_details := env.newPlan,
           execution_summary := s.execution_summary ++ [updateSummary env.newPlan] }

/-! ## Router (`validator_and_router_node`, src/agent/graph.py lines 203-237) -/

/-- The halt entry appended to `execution_summary` when a failure arrives
with the retry budget exhausted (src/agent/graph.py line 209). -/
def haltMsg : String :=
  "\n[Job Halted] Maximum retries reached for a failing step."

/-- The check `len(state['results']) >= state['plan_details'].get('target_count', float('inf'))`:
an absent `target_count` compares as positive infinity, so the check is
false. -/
def targetHit (pd : PlanDetails) (nResults : Nat) : Bool :=
  match pd.target_count with
  | none => false
  | some t => decide (t ≤ (nResults : Int))

/-- The `Collected N/target items.` reason pushed when the target count is
reached. -/
def collectedMsg (nResults : Nat) (pd : PlanDetails) : String :=
  match pd.target_count with
  | none => ""
  | some t => "Collected " ++ toString nResults ++ "/" ++ toString t ++ " items."

/-- The reason pushed for a `finish` action:
`state['last_action'].get("reason", "Task completed.")`. -/
def finishReason (a : ActionRec) : String := a.reason.getD "Task completed."

/-- Result of one router invocation: the branch name returned to the graph
(`"retry"`, `"continue"` or `"__end__"`), the status events pushed during
the call as (event name, reason) pairs, and the mutated state. -/
structure RouterOut where
  route : String
  events : List (String × String)
  state : AgentState

/-- Shallow embedding of `validator_and_router_node` (src/agent/graph.py
lines 203-237).  The source resets `retry_count` to 0 (line 212) before
evaluating the completion checks; since none of those checks reads
`retry_count`, each non-FAILED branch here carries the reset state
directly. -/
def validator_and_router_node (s : AgentState) : RouterOut :=
  if s.last_action_outcome = "FAILED" then
    if s.retry_count < 2 then
      { route := "retry", events := [],
        state := { s with retry_count := s.retry_count + 1 } }
    else
      { route := "__end__", events := [],
        state := { s with execution_summary := s.execution_summary ++ [haltMsg] } }
  else if targetHit s.plan_details s.results.length then
    { route := "__end__",
      events := [("agent_finished", collectedMsg s.results.length s.plan_details)],
      state := { s with retry_count := 0 } }
  else if s.last_action.typ = some "finish" then
    { route := "__end__",
      events := [("agent_finished", finishReason s.last_action)],
      state := { s with retry_count := 0 } }
  else if s.step > s.plan_details.plan.length then
    { route := "__end__",
      events := [("agent_finished", "All plan steps completed.")],
      state := { s with retry_count := 0 } }
  else if s.step > s.max_steps then
    { route := "__end__",
      events := [("agent_stopped", "Max steps reached.")],
      state := { s with retry_count := 0 } }
  else
    { route := "continue", events := [], state := { s with retry_count := 0 } }

/-- The router decision as the specification states it (spec §4.4, first
match wins): 1. Failed outcome → retry below 2 retries, else halt;
2. (Success) target-count check with absent target unbounded; 3. finish
action; 4. plan exhausted; 5. step ceiling; 6. continue.  Defined on
exactly the tuple of inputs §8 names, to be compared with the embedding of
the source. -/
def routerDecisionSpec (outcome : String) (retry : Nat) (nResults : Nat)
    (target : Option Int) (aType : Option String)
    (step planLen maxSteps : Nat) : String :=
  if outcome = "FAILED" then
    if retry < 2 then "retry" else "__end__"
  else if (match target with
           | none => false
           | some t => decide (t ≤ (nResults : Int))) then "__end__"
  else if aType = some "finish" then "__end__"
  else if step > planLen then "__end__"
  else if step > maxSteps then "__end__"
  else "continue"

/-! ## The workflow graph (`create_graph`, src/agent/graph.py lines 239-258) -/

/-- Nodes of the compiled workflow graph, plus the `done` terminal. -/
inductive Node where
  | planner : Node
  | reasoner : Node
  | executor : Node
  | researcher : Node
  | planUpdater : Node
  | done : Node

/-- One transition of the workflow graph as wired by `create_graph`:
planner → reasoner → executor, the conditional edge from the executor
through the router (`continue` → reasoner, `retry` → researcher,
`__end__` → end), and the recovery edges researcher → plan-updater →
reasoner.  Each transition existentially carries the environment (browser
reads, LLM responses, exception outcomes) its phase consumed. -/
inductive GStep : Node × AgentState → Node × AgentState → Prop where
  | plan (env : PlanEnv) (s : AgentState) :
      GStep (Node.planner, s) (Node.reasoner, planning_node env s)
  | reason (env : ReasonerEnv) (s : AgentState) :
      GStep (Node.reasoner, s) (Node.executor, agent_reasoning_node env s)
  | execCont (env : ExecEnv) (s : AgentState)
      (h : (validator_and_router_node (execute_action_node env s)).route = "continue") :
      GStep (Node.executor, s)
        (Node.reasoner, (validator_and_router_node (execute_action_node env s)).state)
  | execRetry (env : ExecEnv) (s : AgentState)
      (h : (validator_and_router_node (execute_action_node env s)).route = "retry") :
      GStep (Node.executor, s)
        (Node.researcher, (validator_and_router_node (execute_action_node env s)).state)
  | execEnd (env : ExecEnv) (s : AgentState)
      (h : (validator_and_router_node (execute_action_node env s)).route = "__end__") :
      GStep (Node.executor, s)
        (Node.done, (validator_and_router_node (execute_action_node env s)).state)
  | research (env : ResearchEnv) (s : AgentState) :
      GStep (Node.researcher, s) (Node.planUpdater, researcher_node env s)
  | update (env : PlanUpdateEnv) (s : AgentState) :
      GStep (Node.planUpdater, s) (Node.reasoner, plan_updater_node env s)

/-- A node/state pair is reachable when some job (some job id, query, URL
and provider) can drive the graph from its initial state to it. -/
def Reachable (p : Node × AgentState) : Prop :=
  ∃ jid q u pr, Relation.ReflTransGen GStep (Node.planner, initialState jid q u pr) p

/-! ## Concrete fixtures used by scenario claims and witnesses -/

/-- An executor environment in which every browser call succeeds. -/
def envOk : ExecEnv :=
  { elemVisible := Except.ok (), clickRes := Except.ok (),
    pressRes := Except.ok (), loadState := Except.ok (),
    fillRes := Except.ok (), evalScroll := Except.ok (),
    scrollPause := Except.ok (), waitPause := Except.ok (),
    postSettle := Except.ok () }

/-- An executor environment in which only the uniform post-action settle
wait of src/agent/graph.py line 141 raises a timeout. -/
def envPostFail : ExecEnv :=
  { envOk with postSettle := Except.error "Timeout 5000ms exceeded." }

/-- An action dict holding only a `type` key. -/
def actionOf (t : String) : ActionRec := { emptyAction with typ := some t }

/-- An extract action carrying one item. -/
def extractOneAction : ActionRec :=
  { emptyAction with typ := some "extract", items := [JsonV.str "item one"] }

/-- A state (fresh job) whose pending `last_action` is `a`. -/
def stWith (a : ActionRec) : AgentState :=
  { initialState "job" "query" "url" "prov" with last_action := a }

/-- A three-step plan with no target count, for the plan-exhaustion
scenario of spec §8. -/
def c6plan : PlanDetails :=
  { objective := none, intent := none,
    plan := ["step one", "step two", "step three"], target_count := none }

/-- Planner environment producing the three-step plan. -/
def c6penv : PlanEnv := { pageUrl := "http://site", planDetails := c6plan }

/-- Reasoner environment always choosing a `wait` action (so no `finish`
arrives before the plan is exhausted). -/
def c6renv : ReasonerEnv :=
  { pageContent := "", pageUrl := "http://site", simplifiedElements := "",
    modifiedHtml := "", thought := none, action := actionOf "wait" }

/-- One reasoner → executor → router pass of the scenario job, with every
browser call succeeding. -/
def c6pass (s : AgentState) : RouterOut :=
  validator_and_router_node (execute_action_node envOk (agent_reasoning_node c6renv s))

/-- Router outcome after the first pass of the scenario job. -/
def c6r1 : RouterOut :=
  c6pass (planning_node c6penv (initialState "job1" "collect" "http://site" "anthropic"))

/-- Router outcome after the second pass. -/
def c6r2 : RouterOut := c6pass c6r1.state

/-- Router outcome after the third pass, which exhausts the plan. -/
def c6r3 : RouterOut := c6pass c6r2.state

/-- A fresh-job state at step 4 with the exhausted three-step plan. -/
def c6doneState : AgentState :=
  { initialState "j" "q" "u" "p" with step := 4, plan_details := c6plan }

/-- A fresh-job state with a given last outcome and retry count. -/
def stOutcome (oc : String) (rc : Nat) : AgentState :=
  { initialState "j" "q" "u" "p" with last_action_outcome := oc, retry_count := rc }

/-- Research environment with no Tavily client configured. -/
def envNoTavily : ResearchEnv :=
  { tavilyConfigured := false, searchResults := Except.ok [], analysis := Except.ok "" }

/-- Research environment whose search call raises. -/
def envSearchFail : ResearchEnv :=
  { tavilyConfigured := true, searchResults := Except.error "boom",
    analysis := Except.ok "" }

/-- Research environment whose analysis call raises. -/
def envAnalysisFail : ResearchEnv :=
  { tavilyConfigured := true, searchResults := Except.ok [],
    analysis := Except.error "broke" }

/-! ## Helper lemmas about single phases -/

lemma routerAux_rc_le (s : AgentState) (h : s.retry_count ≤ 2) :
    (validator_and_router_node s).state.retry_count ≤ 2 := by
  unfold validator_and_router_node
  split_ifs <;> simp <;> omega

lemma routerAux_step (s : AgentState) :
    (validator_and_router_node s).state.step = s.step := by
  unfold validator_and_router_node
  split_ifs <;> rfl

lemma routerAux_history (s : AgentState) :
    (validator_and_router_node s).state.history = s.history := by
  unfold validator_and_router_node
  split_ifs <;> rfl

lemma routerAux_summary (s : AgentState) :
    ∃ t, (validator_and_router_node s).state.execution_summary =
      s.execution_summary ++ t := by
  unfold validator_and_router_node
  split_ifs
  · exact ⟨[], by simp⟩
  · exact ⟨[haltMsg], rfl⟩
  all_goals exact ⟨[], by simp⟩

lemma execAux_rc (env : ExecEnv) (s : AgentState) :
    (execute_action_node env s).retry_count = s.retry_count := rfl

lemma execAux_step_eq (env : ExecEnv) (s : AgentState) :
    (execute_action_node env s).step =
      if (execute_action_node env s).last_action_outcome = "Success"
      then s.step + 1 else s.step := rfl

lemma execAux_step_ge (env : ExecEnv) (s : AgentState) :
    s.step ≤ (execute_action_node env s).step := by
  rw [execAux_step_eq]
  split <;> omega

lemma execAux_hist_len (env : ExecEnv) (s : AgentState) :
    (execute_action_node env s).history.length = min (s.history.length + 1) 5 := by
  show ((s.history ++ [_]).drop ((s.history ++ [_]).length - 5)).length = _
  simp
  omega

lemma execAux_summary (env : ExecEnv) (s : AgentState) :
    (execute_action_node env s).execution_summary =
      s.execution_summary ++ [execEntry s.last_action
        (execute_action_node env s).last_action_outcome
        (execute_action_node env s).last_error] := rfl

lemma firstIdx_isSome_of_mem {a : Char} {l : List Char} (h : a ∈ l) :
    (firstIdx a l).isSome = true := by
  induction l with
  | nil => cases h
  | cons c rest ih =>
    unfold firstIdx
    split_ifs with hc
    · rfl
    · rcases List.mem_cons.mp h with h1 | h2
      · exact absurd h1.symm hc
      · have hr := ih h2
        cases hfi : firstIdx a rest with
        | none => rw [hfi] at hr; simp at hr
        | some k => simp [hfi]

lemma repairedCandidate_isSome (text : String) (h : '{' ∈ text.toList) :
    ∃ c, repairedCandidate text = some c := by
  have hs := firstIdx_isSome_of_mem h
  cases hfi : firstIdx '{' text.toList with
  | none => rw [hfi] at hs; simp at hs
  | some i => exact ⟨_, by unfold repairedCandidate; rw [hfi]⟩

/-! ## Helper lemmas about single graph transitions -/

lemma gstep_rc_le {p q : Node × AgentState} (h : GStep p q)
    (hp : p.2.retry_count ≤ 2) : q.2.retry_count ≤ 2 := by
  cases h with
  | plan env s => exact hp
  | reason env s => exact hp
  | execCont env s _ => exact routerAux_rc_le _ hp
  | execRetry env s _ => exact routerAux_rc_le _ hp
  | execEnd env s _ => exact routerAux_rc_le _ hp
  | research env s =>
      show (researcher_node env s).retry_count ≤ 2
      unfold researcher_node
      split_ifs
      · exact hp
      · cases env.searchResults with
        | error e => exact hp
        | ok c => cases env.analysis with
          | error e => exact hp
          | ok a => exact hp
  | update env s => exact hp

lemma gstep_step_le {p q : Node × AgentState} (h : GStep p q) :
    p.2.step ≤ q.2.step := by
  cases h with
  | plan env s => exact Nat.le_refl _
  | reason env s => exact Nat.le_refl _
  | execCont env s _ =>
      show s.step ≤ (validator_and_router_node (execute_action_node env s)).state.step
      rw [routerAux_step]
      exact execAux_step_ge env s
  | execRetry env s _ =>
      show s.step ≤ (validator_and_router_node (execute_action_node env s)).state.step
      rw [routerAux_step]
      exact execAux_step_ge env s
  | execEnd env s _ =>
      show s.step ≤ (validator_and_router_node (execute_action_node env s)).state.step
      rw [routerAux_step]
      exact execAux_step_ge env s
  | research env s =>
      show s.step ≤ (researcher_node env s).step
      unfold researcher_node
      split_ifs
      · exact Nat.le_refl _
      · cases env.searchResults with
        | error e => exact Nat.le_refl _
        | ok c => cases env.analysis with
          | error e => exact Nat.le_refl _
          | ok a => exact Nat.le_refl _
  | update env s => exact Nat.le_refl _

lemma gstep_hist_le {p q : Node × AgentState} (h : GStep p q)
    (hp : p.2.history.length ≤ 5) : q.2.history.length ≤ 5 := by
  cases h with
  | plan env s => exact hp
  | reason env s => exact hp
  | execCont env s _ =>
      show (validator_and_router_node (execute_action_node env s)).state.history.length ≤ 5
      rw [routerAux_history, execAux_hist_len]
      omega
  | execRetry env s _ =>
      show (validator_and_router_node (execute_action_node env s)).state.history.length ≤ 5
      rw [routerAux_history, execAux_hist_len]
      omega
  | execEnd env s _ =>
      show (validator_and_router_node (execute_action_node env s)).state.history.length ≤ 5
      rw [routerAux_history, execAux_hist_len]
      omega
  | research env s =>
      show (researcher_node env s).history.length ≤ 5
      unfold researcher_node
      split_ifs
      · exact hp
      · cases env.searchResults with
        | error e => exact hp
        | ok c => cases env.analysis with
          | error e => exact hp
          | ok a => exact hp
  | update env s => exact hp

lemma gstep_summary_mono {p q : Node × AgentState} (h : GStep p q) :
    ∃ t, q.2.execution_summary = p.2.execution_summary ++ t := by
  cases h with
  | plan env s => exact ⟨[planSummary env.planDetails], rfl⟩
  | reason env s => exact ⟨[_], rfl⟩
  | execCont env s _ =>
      obtain ⟨t, ht⟩ := routerAux_summary (execute_action_node env s)
      exact ⟨_, by rw [ht, execAux_summary, List.append_assoc]⟩
  | execRetry env s _ =>
      obtain ⟨t, ht⟩ := routerAux_summary (execute_action_node env s)
      exact ⟨_, by rw [ht, execAux_summary, List.append_assoc]⟩
  | execEnd env s _ =>
      obtain ⟨t, ht⟩ := routerAux_summary (execute_action_node env s)
      exact ⟨_, by rw [ht, execAux_summary, List.append_assoc]⟩
  | research env s =>
      refine ⟨[], ?_⟩
      show (researcher_node env s).execution_summary = s.execution_summary ++ []
      unfold researcher_node
      split_ifs
      · simp
      · cases env.searchResults with
        | error e => simp
        | ok c => cases env.analysis with
          | error e => simp
          | ok a => simp
  | update env s => exact ⟨[updateSummary env.newPlan], rfl⟩

lemma rtc_step_le {p q : Node × AgentState}
    (h : Relation.ReflTransGen GStep p q) : p.2.step ≤ q.2.step := by
  induction h with
  | refl => exact Nat.le_refl _
  | tail _ hstep ih => exact Nat.le_trans ih (gstep_step_le hstep)

lemma rtc_summary_mono {p q : Node × AgentState}
    (h : Relation.ReflTransGen GStep p q) :
    ∃ t, q.2.execution_summary = p.2.execution_summary ++ t := by
  induction h with
  | refl => exact ⟨[], by simp⟩
  | tail _ hstep ih =>
      obtain ⟨t1, ht1⟩ := ih
      obtain ⟨t2, ht2⟩ := gstep_summary_mono hstep
      exact ⟨t1 ++ t2, by rw [ht2, ht1, List.append_assoc]⟩

lemma reachable_rc_le (p : Node × AgentState) (h : Reachable p) :
    p.2.retry_count ≤ 2 := by
  obtain ⟨jid, q0, u, pr, hr⟩ := h
  induction hr with
  | refl => exact Nat.zero_le 2
  | tail _ hstep ih => exact gstep_rc_le hstep ih

lemma reachable_hist_le (p : Node × AgentState) (h : Reachable p) :
    p.2.history.length ≤ 5 := by
  obtain ⟨jid, q0, u, pr, hr⟩ := h
  induction hr with
  | refl => exact Nat.zero_le 5
  | tail _ hstep ih => exact gstep_hist_le hstep ih

/-! ## Claim theorems -/

/-- C1: the Router is a deterministic function of (last_action_outcome,
retry_count, results size, target_count, last_action.type, step, plan
length, max_steps): its branch decision coincides with the specification
decision function `routerDecisionSpec` evaluated on exactly that tuple, in
the fixed precedence failure-retry/halt, target count, finish action, plan
length, step ceiling, continue; the decision is always one of `continue`,
`retry`, or terminate (`__end__`). -/
theorem router_deterministic_and_ordered (s : AgentState) :
    (validator_and_router_node s).route =
      routerDecisionSpec s.last_action_outcome s.retry_count
        s.results.length s.plan_details.target_count s.last_action.typ
        s.step s.plan_details.plan.length s.max_steps ∧
    ((validator_and_router_node s).route = "continue" ∨
     (validator_and_router_node s).route = "retry" ∨
     (validator_and_router_node s).route = "__end__") := by
  constructor
  · unfold validator_and_router_node routerDecisionSpec targetHit
    split_ifs <;> rfl
  · unfold validator_and_router_node
    split_ifs <;> simp

/-- C2 counterexample: on a text with no `{` at all the repair routine does
not return an object, it signals the `ValueError` the source raises at
src/agent/llm.py line 61 — so it is not true that every text input yields
an object. -/
theorem extract_json_counterexample :
    extract_json_from_response (fun _ => none) "garbage" =
      Except.error "No JSON object found in the model response: garbage" := rfl

/-- C2 (amended): for every text input that contains at least one `{`, the
repair routine returns an object and never raises, and whenever the
repaired candidate is still unparsable it returns the default object whose
action is `{"type": "wait"}`.  (Texts with no `{` raise `ValueError`.) -/
theorem extract_json_total_amended (parse : String → Option JsonV)
    (text : String) (h : '{' ∈ text.toList) :
    (extract_json_from_response parse text).isOk = true ∧
    ((∀ c, parse c = none) →
      extract_json_from_response parse text = Except.ok fallbackAction) := by
  obtain ⟨c, hc⟩ := repairedCandidate_isSome text h
  have he : extract_json_from_response parse text =
      (match parse c with
       | some v => Except.ok v
       | none => Except.ok fallbackAction) := by
    unfold extract_json_from_response
    rw [hc]
  constructor
  · rw [he]
    cases hp : parse c <;> simp only [hp] <;> rfl
  · intro hnone
    rw [he, hnone c]

/-- C2 witness: a concrete garbage text containing `{`, with a parse
function that always fails, yields the default wait action. -/
theorem extract_json_total_amended_witness :
    '{' ∈ "x<\x7byes no".toList ∧
    (extract_json_from_response (fun _ => none) "x<\x7byes no").isOk = true ∧
    extract_json_from_response (fun _ => none) "x<\x7byes no" =
      Except.ok fallbackAction := by
  have h : '{' ∈ "x<\x7byes no".toList := by decide
  have h2 := extract_json_total_amended (fun _ => none) "x<\x7byes no" h
  exact ⟨h, h2.1, h2.2 (fun c => rfl)⟩

/-- C3 counterexample: an action whose `type` is the unrecognized string
`bogus` matches no branch of the executor dispatch and falls through to the
settle pause, so with every browser call succeeding its recorded outcome is
`Success`, not the `Failed` the claim requires. -/
theorem exec_unknown_type_not_failed :
    (execute_action_node envOk (stWith (actionOf "bogus"))).last_action_outcome
      = "Success" := rfl

/-- C3 (amended): only a missing or empty action (no `type` key) is
recorded as Failed, with the descriptive error `Agent produced an invalid
or empty action.`; an action whose `type` is any string outside the
dispatched vocabulary (click, press_enter, fill, scroll, wait, extract)
falls through the dispatch with no effect and is recorded as `Success`
whenever the post-action settle wait does not raise. -/
theorem exec_invalid_action_amended (env : ExecEnv) (s : AgentState) :
    (s.last_action.typ = none →
      (execute_action_node env s).last_action_outcome = "FAILED" ∧
      (execute_action_node env s).last_error =
        "Agent produced an invalid or empty action.") ∧
    (∀ t, s.last_action.typ = some t →
      t ≠ "click" → t ≠ "press_enter" → t ≠ "fill" → t ≠ "scroll" →
      t ≠ "wait" → t ≠ "extract" → env.postSettle = Except.ok () →
      (execute_action_node env s).last_action_outcome = "Success") := by
  constructor
  · intro h
    constructor <;> simp only [execute_action_node, h]
  · intro t ht h1 h2 h3 h4 h5 h6 hpost
    simp only [execute_action_node, tryFull, tryBody, ht, hpost,
      Option.some.injEq]
    simp [h1, h2, h3, h4, h5, h6]

/-- C3 witness: the empty action is recorded FAILED; a concrete
unrecognized type is recorded Success. -/
theorem exec_invalid_action_amended_witness :
    (execute_action_node envOk (stWith emptyAction)).last_action_outcome
      = "FAILED" ∧
    (execute_action_node envOk (stWith (actionOf "odd"))).last_action_outcome
      = "Success" :=
  ⟨((exec_invalid_action_amended envOk (stWith emptyAction)).1 rfl).1,
   (exec_invalid_action_amended envOk (stWith (actionOf "odd"))).2 "odd" rfl
     (by decide) (by decide) (by decide) (by decide) (by decide) (by decide) rfl⟩

/-- C4: retry_count stays in 0..2 in every reachable node/state pair; the
Router increments it by 1 and routes retry on a FAILED outcome with
retry_count below 2; a FAILED outcome arriving with retry_count already at
2 yields the terminal decision with the halt summary appended; and any
Success outcome resets retry_count to 0. -/
theorem retry_count_invariant :
    (∀ p : Node × AgentState, Reachable p → p.2.retry_count ≤ 2) ∧
    (∀ s : AgentState, s.last_action_outcome = "FAILED" → s.retry_count < 2 →
      (validator_and_router_node s).route = "retry" ∧
      (validator_and_router_node s).state.retry_count = s.retry_count + 1) ∧
    (∀ s : AgentState, s.last_action_outcome = "FAILED" → s.retry_count = 2 →
      (validator_and_router_node s).route = "__end__" ∧
      (validator_and_router_node s).state.execution_summary =
        s.execution_summary ++ [haltMsg]) ∧
    (∀ s : AgentState, s.last_action_outcome = "Success" →
      (validator_and_router_node s).state.retry_count = 0) := by
  refine ⟨reachable_rc_le, ?_, ?_, ?_⟩
  · intro s h1 h2
    unfold validator_and_router_node
    rw [if_pos h1, if_pos h2]
    exact ⟨rfl, rfl⟩
  · intro s h1 h2
    unfold validator_and_router_node
    rw [if_pos h1, if_neg (by omega)]
    exact ⟨rfl, rfl⟩
  · intro s h1
    unfold validator_and_router_node
    rw [if_neg (by rw [h1]; decide)]
    split_ifs <;> rfl

/-- C4 witness: the invariant at the initial state, and the three router
behaviours at concrete states. -/
theorem retry_count_invariant_witness :
    (initialState "j" "q" "u" "p").retry_count ≤ 2 ∧
    ((validator_and_router_node (stOutcome "FAILED" 0)).route = "retry" ∧
     (validator_and_router_node (stOutcome "FAILED" 0)).state.retry_count = 0 + 1) ∧
    ((validator_and_router_node (stOutcome "FAILED" 2)).route = "__end__" ∧
     (validator_and_router_node (stOutcome "FAILED" 2)).state.execution_summary =
       (stOutcome "FAILED" 2).execution_summary ++ [haltMsg]) ∧
    (validator_and_router_node (stOutcome "Success" 1)).state.retry_count = 0 :=
  ⟨retry_count_invariant.1 (Node.planner, initialState "j" "q" "u" "p")
      ⟨"j", "q", "u", "p", Relation.ReflTransGen.refl⟩,
   retry_count_invariant.2.1 (stOutcome "FAILED" 0) rfl (by decide),
   retry_count_invariant.2.2.1 (stOutcome "FAILED" 2) rfl rfl,
   retry_count_invariant.2.2.2 (stOutcome "Success" 1) rfl⟩

/-- C5: step never decreases along any sequence of workflow transitions;
an Executor pass increments it by exactly 1 precisely when its outcome is
Success; and no other phase (Planner, Reasoner, Researcher, Plan-updater,
Router) changes step. -/
theorem step_monotone :
    (∀ p q : Node × AgentState,
      Relation.ReflTransGen GStep p q → p.2.step ≤ q.2.step) ∧
    (∀ (env : ExecEnv) (s : AgentState),
      (execute_action_node env s).step =
        if (execute_action_node env s).last_action_outcome = "Success"
        then s.step + 1 else s.step) ∧
    (∀ (env : PlanEnv) (s : AgentState), (planning_node env s).step = s.step) ∧
    (∀ (env : ReasonerEnv) (s : AgentState),
      (agent_reasoning_node env s).step = s.step) ∧
    (∀ (env : ResearchEnv) (s : AgentState),
      (researcher_node env s).step = s.step) ∧
    (∀ (env : PlanUpdateEnv) (s : AgentState),
      (plan_updater_node env s).step = s.step) ∧
    (∀ s : AgentState, (validator_and_router_node s).state.step = s.step) := by
  refine ⟨fun p q h => rtc_step_le h, fun env s => rfl, fun env s => rfl,
    fun env s => rfl, ?_, fun env s => rfl, routerAux_step⟩
  intro env s
  unfold researcher_node
  split_ifs
  · rfl
  · cases env.searchResults with
    | error e => rfl
    | ok c =>
      cases env.analysis with
      | error e => rfl
      | ok a => rfl

/-- C5 witness: monotonicity applied to the single planner transition of a
concrete job. -/
theorem step_monotone_witness :
    (initialState "j" "q" "u" "p").step ≤
      (planning_node c6penv (initialState "j" "q" "u" "p")).step :=
  step_monotone.1 (Node.planner, initialState "j" "q" "u" "p")
    (Node.reasoner, planning_node c6penv (initialState "j" "q" "u" "p"))
    (Relation.ReflTransGen.single (GStep.plan c6penv _))

/-- C6: for a job with a 3-step plan, no target count, all actions
succeeding and no finish action, the first two router passes continue, the
third terminates with the reason "All plan steps completed." exactly when
step has reached 4; and whenever the Reasoner runs with step past the plan
length it sets current_task to the plan-complete sentinel. -/
theorem plan_exhaustion_scenario :
    (c6r1.route = "continue" ∧ c6r2.route = "continue" ∧
     c6r3.route = "__end__" ∧ c6r3.state.step = 4 ∧
     c6r3.events = [("agent_finished", "All plan steps completed.")]) ∧
    (∀ (env : ReasonerEnv) (s : AgentState),
      s.plan_details.plan.length < s.step →
      (agent_reasoning_node env s).current_task = sentinelTask) := by
  constructor
  · exact ⟨rfl, rfl, rfl, rfl, rfl⟩
  · intro env s h
    show (if s.step - 1 < s.plan_details.plan.length
          then s.plan_details.plan.getD (s.step - 1) ""
          else sentinelTask) = sentinelTask
    rw [if_neg (by omega)]

/-- C6 witness: the Reasoner at step 4 of the exhausted 3-step plan sets
the sentinel task. -/
theorem plan_exhaustion_scenario_witness :
    (agent_reasoning_node c6renv c6doneState).current_task = sentinelTask :=
  plan_exhaustion_scenario.2 c6renv c6doneState (by decide)

/-- C7: the Researcher phase never raises: with no search client it returns
the state unchanged except for the degraded no-op research_summary, an
exception from the search or the analysis call is caught and converted into
a degraded `Research failed:` summary, a successful analysis is stored, and
in the graph the researcher always hands control to the Plan-updater. -/
theorem researcher_never_raises (env : ResearchEnv) (s : AgentState) :
    (env.tavilyConfigured = false →
      researcher_node env s =
        { s with research_summary :=
            "Tavily API key not configured. Skipping research." }) ∧
    (∀ e, env.tavilyConfigured = true → env.searchResults = Except.error e →
      (researcher_node env s).research_summary = "Research failed: " ++ e) ∧
    (∀ ctx e, env.tavilyConfigured = true → env.searchResults = Except.ok ctx →
      env.analysis = Except.error e →
      (researcher_node env s).research_summary = "Research failed: " ++ e) ∧
    (∀ ctx a, env.tavilyConfigured = true → env.searchResults = Except.ok ctx →
      env.analysis = Except.ok a →
      (researcher_node env s).research_summary = a) ∧
    GStep (Node.researcher, s) (Node.planUpdater, researcher_node env s) := by
  refine ⟨?_, ?_, ?_, ?_, GStep.research env s⟩
  · intro h
    unfold researcher_node
    rw [if_pos h]
  · intro e h1 h2
    unfold researcher_node
    rw [if_neg (by rw [h1]; decide), h2]
  · intro ctx e h1 h2 h3
    unfold researcher_node
    rw [if_neg (by rw [h1]; decide), h2, h3]
  · intro ctx a h1 h2 h3
    unfold researcher_node
    rw [if_neg (by rw [h1]; decide), h2, h3]

/-- C7 witness: the three degraded cases at concrete environments, and the
graph edge to the Plan-updater. -/
theorem researcher_never_raises_witness :
    researcher_node envNoTavily (stWith emptyAction) =
      { stWith emptyAction with research_summary :=
          "Tavily API key not configured. Skipping research." } ∧
    (researcher_node envSearchFail (stWith emptyAction)).research_summary =
      "Research failed: boom" ∧
    (researcher_node envAnalysisFail (stWith emptyAction)).research_summary =
      "Research failed: broke" ∧
    GStep (Node.researcher, stWith emptyAction)
      (Node.planUpdater, researcher_node envNoTavily (stWith emptyAction)) :=
  ⟨(researcher_never_raises envNoTavily (stWith emptyAction)).1 rfl,
   (researcher_never_raises envSearchFail (stWith emptyAction)).2.1 "boom" rfl rfl,
   (researcher_never_raises envAnalysisFail (stWith emptyAction)).2.2.1 [] "broke"
     rfl rfl rfl,
   (researcher_never_raises envNoTavily (stWith emptyAction)).2.2.2.2⟩

/-- C8: history holds at most 5 entries in every reachable node/state pair;
each Executor pass appends one entry and truncates to the last 5 (so its
length becomes min (old + 1) 5); and execution_summary is append-only
along any sequence of workflow transitions. -/
theorem history_capped :
    (∀ p : Node × AgentState, Reachable p → p.2.history.length ≤ 5) ∧
    (∀ (env : ExecEnv) (s : AgentState),
      (execute_action_node env s).history.length = min (s.history.length + 1) 5) ∧
    (∀ p q : Node × AgentState, Relation.ReflTransGen GStep p q →
      ∃ t, q.2.execution_summary = p.2.execution_summary ++ t) :=
  ⟨reachable_hist_le, execAux_hist_len, fun _ _ h => rtc_summary_mono h⟩

/-- C8 witness: the invariant and append-only property at the initial
state and the executor bound at a concrete pass. -/
theorem history_capped_witness :
    (initialState "j" "q" "u" "p").history.length ≤ 5 ∧
    (execute_action_node envOk (stWith emptyAction)).history.length =
      min ((stWith emptyAction).history.length + 1) 5 ∧
    ∃ t, (initialState "j" "q" "u" "p").execution_summary =
      (initialState "j" "q" "u" "p").execution_summary ++ t :=
  ⟨history_capped.1 (Node.planner, initialState "j" "q" "u" "p")
      ⟨"j", "q", "u", "p", Relation.ReflTransGen.refl⟩,
   history_capped.2.1 envOk (stWith emptyAction),
   history_capped.2.2 (Node.planner, initialState "j" "q" "u" "p")
     (Node.planner, initialState "j" "q" "u" "p") Relation.ReflTransGen.refl⟩

/-- C9: the Router leaves every state field unchanged except retry_count
(set per the retry policy) and execution_summary, which gains exactly the
halt entry on the FAILED-with-exhausted-retries path and is untouched
otherwise. -/
theorem router_frame (s : AgentState) :
    (validator_and_router_node s).state.job_id = s.job_id ∧
    (validator_and_router_node s).state.query = s.query ∧
    (validator_and_router_node s).state.url = s.url ∧
    (validator_and_router_node s).state.provider = s.provider ∧
    (validator_and_router_node s).state.plan_details = s.plan_details ∧
    (validator_and_router_node s).state.current_task = s.current_task ∧
    (validator_and_router_node s).state.page_content = s.page_content ∧
    (validator_and_router_node s).state.modified_html_for_action =
      s.modified_html_for_action ∧
    (validator_and_router_node s).state.results = s.results ∧
    (validator_and_router_node s).state.screenshots = s.screenshots ∧
    (validator_and_router_node s).state.step = s.step ∧
    (validator_and_router_node s).state.max_steps = s.max_steps ∧
    (validator_and_router_node s).state.history = s.history ∧
    (validator_and_router_node s).state.last_action = s.last_action ∧
    (validator_and_router_node s).state.last_action_outcome =
      s.last_action_outcome ∧
    (validator_and_router_node s).state.last_error = s.last_error ∧
    (validator_and_router_node s).state.research_summary = s.research_summary ∧
    (validator_and_router_node s).state.retry_count =
      (if s.last_action_outcome = "FAILED"
       then (if s.retry_count < 2 then s.retry_count + 1 else s.retry_count)
       else 0) ∧
    (validator_and_router_node s).state.execution_summary =
      (if s.last_action_outcome = "FAILED" ∧ 2 ≤ s.retry_count
       then s.execution_summary ++ [haltMsg] else s.execution_summary) := by
  unfold validator_and_router_node
  split_ifs <;> simp_all <;> omega

/-- C10: the extract action is not atomic with respect to failure: with
the post-action settle wait raising a timeout, an extract pass is recorded
FAILED and yet results has been extended with the extracted items. -/
theorem extract_not_atomic :
    (execute_action_node envPostFail (stWith extractOneAction)).last_action_outcome
      = "FAILED" ∧
    (execute_action_node envPostFail (stWith extractOneAction)).results =
      (stWith extractOneAction).results ++ [JsonV.str "item one"] ∧
    (stWith extractOneAction).results = [] :=
  ⟨rfl, rfl, rfl⟩

end UniversalAgent
